import Mathlib

/-!
Shallow embedding of `skew_fix_ps.py` (prusaslicer-skew-fix), the PrusaSlicer
post-processing hook that applies an XY shear to text G-code.

Conventions of the embedding:
* Python floats are modelled as rationals (`ℚ`); all arithmetic the source
  performs (`+ - * /`, comparisons, `int(math.ceil ...)`, `abs`, `min`, `max`)
  is exact on the values the source manipulates.
* The transcendental math-library functions (`math.cos`, `math.sin`,
  `math.atan2`, `math.hypot`, `math.radians`, `math.tan`) and `math.pi` are an
  explicit oracle parameter (`FloatOps`); theorems quantify over the oracle,
  and concrete instances give the oracle honest values at the points a
  concrete input actually consults.
* A G-code document is a list of lines (newline already stripped, as in the
  source's `raw.rstrip("\n")`); a line is a `String`, processed as its
  character list.
* Functions that `raise SystemExit` are embedded in `Except String`.
-/

-- Batteries marks the rational field operations irreducible; evaluation of
-- the embedding on concrete inputs (for witnesses and counterexamples) needs
-- them reducible again.
attribute [local semireducible] Rat.add Rat.sub Rat.mul Rat.inv Rat.ofScientific

/-- Whitespace for Python `str.strip` / regex `\s` (`[ \t\n\r\v\f]`). -/
def isSpaceCh (c : Char) : Bool :=
  c == ' ' || c == '\t' || c == '\n' || c == '\r' || c == '\x0b' || c == '\x0c'

/-- Word characters for the regex word boundary `\b` (`[A-Za-z0-9_]`). -/
def isWordCh (c : Char) : Bool := c.isAlphanum || c == '_'

/-- `\b` test against an optional neighbouring character (none = string edge). -/
def wordOpt (c : Option Char) : Bool :=
  match c with
  | some c => isWordCh c
  | none => false

/-- Python `str.rstrip()` (trailing whitespace removed). -/
def rstripWs (l : List Char) : List Char := (l.reverse.dropWhile isSpaceCh).reverse

/-- Python `str.lstrip()`. -/
def lstripWs (l : List Char) : List Char := l.dropWhile isSpaceCh

/-- Python `str.strip()`. -/
def stripWs (l : List Char) : List Char := rstripWs (lstripWs l)

/-- Python `str.upper()` on ASCII G-code text. -/
def upperL (l : List Char) : List Char := l.map Char.toUpper

/-- Python `str.rstrip(s)` for a single stripped character `c`. -/
def rstripCh (c : Char) (l : List Char) : List Char :=
  (l.reverse.dropWhile (fun d => d == c)).reverse

/-- `split_comment` (skew_fix_ps.py lines 51-55): split at the first `;`;
the code part is rstripped, the comment keeps its leading `;`. -/
def split_comment (l : List Char) : List Char × List Char :=
  let a := l.takeWhile (fun c => c != ';')
  let b := l.dropWhile (fun c => c != ';')
  if b.isEmpty then (rstripWs l, []) else (rstripWs a, b)

/-- Value of a list of decimal digit characters. -/
def digitsVal (ds : List Char) : ℕ := ds.foldl (fun a c => 10 * a + (c.toNat - 48)) 0

/-- The number part of `AXIS_RE` (line 37): regex `-?\d+(?:\.\d*)?|-?\.\d+`
matched at the head of `cs` (first alternative preferred, greedy), returning
the parsed value (`float(...)`) and the number of characters matched. -/
def parseNumTok (cs : List Char) : Option (ℚ × ℕ) :=
  let s0 : ℕ := if cs.head? = some '-' then 1 else 0
  let sgn : ℚ := if s0 = 1 then -1 else 1
  let rest := cs.drop s0
  let ds := rest.takeWhile Char.isDigit
  if ds.length ≠ 0 then
    let aft := rest.drop ds.length
    if aft.head? = some '.' then
      let fs := (aft.drop 1).takeWhile Char.isDigit
      some (sgn * ((digitsVal ds : ℚ) + (digitsVal fs : ℚ) / 10 ^ fs.length),
            s0 + ds.length + 1 + fs.length)
    else
      some (sgn * (digitsVal ds : ℚ), s0 + ds.length)
  else
    match rest with
    | '.' :: r2 =>
      let fs := r2.takeWhile Char.isDigit
      if fs.length ≠ 0 then
        some (sgn * ((digitsVal fs : ℚ) / 10 ^ fs.length), s0 + 1 + fs.length)
      else none
    | _ => none

/-- The axis letters of `AXIS_RE`: `[XYZEFRIJK]`. -/
def axisLetters : List Char := ['X', 'Y', 'Z', 'E', 'F', 'R', 'I', 'J', 'K']

/-- `AXIS_RE.finditer` (line 37): scan left to right for
`letter \s* number` matches, non-overlapping, continuing after each match.
The fuel argument only bounds the recursion structurally: every recursive
call strictly shortens the list (a match consumes at least the letter), so
with initial fuel `cs.length` (see `scanWords`) the fuel never runs out. -/
def scanWordsF : ℕ → List Char → List (Char × ℚ)
  | 0, _ => []
  | _, [] => []
  | fuel + 1, c :: rest =>
    if c.toUpper ∈ axisLetters then
      let rest2 := rest.dropWhile isSpaceCh
      match parseNumTok rest2 with
      | some (v, n) => (c.toUpper, v) :: scanWordsF fuel (rest2.drop n)
      | none => scanWordsF fuel rest
    else scanWordsF fuel rest

/-- The finditer scan over a whole code fragment. -/
def scanWords (cs : List Char) : List (Char × ℚ) := scanWordsF cs.length cs

/-- `parse_words` (lines 58-59): dict comprehension over the matches; a later
occurrence of the same axis letter overwrites an earlier one. -/
def parse_words (code : List Char) : List (Char × ℚ) := scanWords code

/-- Dict lookup modelling the comprehension's last-wins overwrite. -/
def getWord : List (Char × ℚ) → Char → Option ℚ
  | [], _ => none
  | (a, v) :: rest, c =>
    match getWord rest c with
    | some w => some w
    | none => if a = c then some v else none

/-- `words.get(c, d)`. -/
def wget (ws : List (Char × ℚ)) (c : Char) (d : ℚ) : ℚ := (getWord ws c).getD d

/-- `c in words`. -/
def whas (ws : List (Char × ℚ)) (c : Char) : Bool := (getWord ws c).isSome

/-- Prefix `G90.1` for the modal checks (`up.startswith(...)`, lines 226-237). -/
def pG901 : List Char := ['G', '9', '0', '.', '1']

/-- Prefix `G91.1`. -/
def pG911 : List Char := ['G', '9', '1', '.', '1']

/-- Prefix `G90`. -/
def pG90 : List Char := ['G', '9', '0']

/-- Prefix `G91`. -/
def pG91 : List Char := ['G', '9', '1']

/-- Prefix `M82`. -/
def pM82 : List Char := ['M', '8', '2']

/-- Prefix `M83`. -/
def pM83 : List Char := ['M', '8', '3']

/-- Regex `^(G<d>)\b` (case-insensitive) against the uppercased stripped code:
`G` then the digit, then a word boundary (end of string or a non-word char). -/
def matchGd (d : Char) (up : List Char) : Bool :=
  match up with
  | g :: c :: rest =>
    g == 'G' && c == d && (match rest with | [] => true | r :: _ => !isWordCh r)
  | _ => false

/-- `MOVE_RE` (line 35): `^(G0|G1)\b`. -/
def is_move (up : List Char) : Bool := matchGd '0' up || matchGd '1' up

/-- `ARC_RE` (line 36): `^(G2|G3)\b`. -/
def is_arc (up : List Char) : Bool := matchGd '2' up || matchGd '3' up

/-- `cw = (s.split()[0].upper() == "G2")` (lines 245, 332, 467, 599-600). -/
def first_tok_g2 (up : List Char) : Bool :=
  up.takeWhile (fun c => !isSpaceCh c) == ['G', '2']

/-- The `State` dataclass (lines 39-48), with the source's field defaults. -/
structure MState where
  abs_xy : Bool := true
  abs_e : Bool := true
  ij_relative : Bool := true
  x : ℚ := 0
  y : ℚ := 0
  z : ℚ := 0
  e : ℚ := 0
  f : Option ℚ := none
deriving DecidableEq

/-- `State()` with all defaults. -/
def initState : MState := {}

/-- The chain of six modal `startswith` checks shared by every pass
(lines 226-237, 310-321, 433-444, 581-592), in the source's order
(`G90.1` before `G90`, `G91.1` before `G91`); `none` means the line is not a
modal-setting line. -/
def apply_modal (st : MState) (up : List Char) : Option MState :=
  if pG901.isPrefixOf up then some { st with ij_relative := false }
  else if pG911.isPrefixOf up then some { st with ij_relative := true }
  else if pG90.isPrefixOf up then some { st with abs_xy := true }
  else if pG91.isPrefixOf up then some { st with abs_xy := false }
  else if pM82.isPrefixOf up then some { st with abs_e := true }
  else if pM83.isPrefixOf up then some { st with abs_e := false }
  else none

/-- Oracle for the math-library functions the source calls on floats.
Theorems quantify over it; concrete instances used on concrete inputs give it
the true mathematical values at the points that input consults. -/
structure FloatOps where
  cos : ℚ → ℚ
  sin : ℚ → ℚ
  atan2 : ℚ → ℚ → ℚ
  hypot : ℚ → ℚ → ℚ
  radians : ℚ → ℚ
  tan : ℚ → ℚ
  pi : ℚ

/-- `apply_skew_abs` (lines 103-113): the pure shear
`x := x + (y - y_ref) * k`, `y := y`. -/
def apply_skew_abs (x y k : ℚ) (y_ref : ℚ := 0) : ℚ × ℚ :=
  (x + (y - y_ref) * k, y)

/-- `_arc_center` (lines 116-121): I/J relative to the current position under
G91.1 (the default), absolute under G90.1. -/
def arc_center (st : MState) (ws : List (Char × ℚ)) : ℚ × ℚ :=
  let i := wget ws 'I' 0
  let j := wget ws 'J' 0
  if st.ij_relative then (st.x + i, st.y + j) else (i, j)

/-- `_arc_end_abs` (lines 124-131): resolve the arc's end point from the X/Y
words under the tracked absolute/relative XY mode. -/
def arc_end_abs (st : MState) (ws : List (Char × ℚ)) : ℚ × ℚ :=
  if st.abs_xy then (wget ws 'X' st.x, wget ws 'Y' st.y)
  else (st.x + wget ws 'X' 0, st.y + wget ws 'Y' 0)

/-- The two `while` loops of `_sweep` (lines 136-139) normalise `da` into
`(-pi, pi]` by adding/subtracting `2*pi`; for `0 < pi` that fixpoint is
`da - 2*pi*ceil((da - pi)/(2*pi))` (each loop body runs finitely often and
the result is the unique representative in `(-pi, pi]`).  For `pi ≤ 0` the
Python loops would not terminate; that branch is unreachable since the source
always passes `math.pi`. -/
def normAngle (pi da : ℚ) : ℚ :=
  if 0 < pi then da - 2 * pi * (⌈(da - pi) / (2 * pi)⌉ : ℚ) else da

/-- `_sweep` (lines 134-146): normalised signed sweep, then forced to the
requested rotation direction. -/
def sweep (pi a0 a1 : ℚ) (cw : Bool) : ℚ :=
  let da := normAngle pi (a1 - a0)
  if cw then (if 0 < da then da - 2 * pi else da)
  else (if da < 0 then da + 2 * pi else da)

/-- `r0 = math.hypot(x0 - cx, y0 - cy)` (line 155). -/
def arc_r0 (F : FloatOps) (st : MState) (ws : List (Char × ℚ)) : ℚ :=
  F.hypot (st.x - (arc_center st ws).1) (st.y - (arc_center st ws).2)

/-- `r1 = math.hypot(x1 - cx, y1 - cy)` (line 156). -/
def arc_r1 (F : FloatOps) (st : MState) (ws : List (Char × ℚ)) : ℚ :=
  F.hypot ((arc_end_abs st ws).1 - (arc_center st ws).1)
    ((arc_end_abs st ws).2 - (arc_center st ws).2)

/-- `r = 0.5*(r0+r1) if (r0 > 0 and r1 > 0) else max(r0, r1)` (line 157). -/
def arc_radius (F : FloatOps) (st : MState) (ws : List (Char × ℚ)) : ℚ :=
  if 0 < arc_r0 F st ws ∧ 0 < arc_r1 F st ws
  then (arc_r0 F st ws + arc_r1 F st ws) / 2
  else max (arc_r0 F st ws) (arc_r1 F st ws)

/-- `a0 = math.atan2(y0 - cy, x0 - cx)` (line 159). -/
def arc_a0 (F : FloatOps) (st : MState) (ws : List (Char × ℚ)) : ℚ :=
  F.atan2 (st.y - (arc_center st ws).2) (st.x - (arc_center st ws).1)

/-- `a1 = math.atan2(y1 - cy, x1 - cx)` (line 160). -/
def arc_a1 (F : FloatOps) (st : MState) (ws : List (Char × ℚ)) : ℚ :=
  F.atan2 ((arc_end_abs st ws).2 - (arc_center st ws).2)
    ((arc_end_abs st ws).1 - (arc_center st ws).1)

/-- `da = _sweep(a0, a1, cw)` (line 162). -/
def arc_sweep (F : FloatOps) (st : MState) (ws : List (Char × ℚ)) (cw : Bool) : ℚ :=
  sweep F.pi (arc_a0 F st ws) (arc_a1 F st ws) cw

/-- `arc_len = abs(da)*r if r > 0 else math.hypot(x1-x0, y1-y0)` (line 163). -/
def arc_length (F : FloatOps) (st : MState) (ws : List (Char × ℚ)) (cw : Bool) : ℚ :=
  if 0 < arc_radius F st ws then |arc_sweep F st ws cw| * arc_radius F st ws
  else F.hypot ((arc_end_abs st ws).1 - st.x) ((arc_end_abs st ws).2 - st.y)

/-- `steps_len` (line 166): the chord-length constraint, with the divisor
clamped below at `1e-6`; disabled (1) for a non-positive target. -/
def steps_len (F : FloatOps) (st : MState) (ws : List (Char × ℚ)) (cw : Bool)
    (seg_mm : ℚ) : ℤ :=
  if 0 < seg_mm then ⌈arc_length F st ws cw / max seg_mm (1 / 1000000)⌉ else 1

/-- `steps_ang` (lines 165, 167): the per-segment angle constraint, divisor
`max(math.radians(max_deg), 1e-9)`; disabled (1) for a non-positive target.
(For `max_deg ≤ 0` the source sets `max_rad = abs(da)` but never uses it.) -/
def steps_ang (F : FloatOps) (st : MState) (ws : List (Char × ℚ)) (cw : Bool)
    (max_deg : ℚ) : ℤ :=
  if 0 < max_deg
  then ⌈|arc_sweep F st ws cw| / max (F.radians max_deg) (1 / 1000000000)⌉
  else 1

/-- `steps = max(1, steps_len, steps_ang)` (line 168). -/
def arc_steps (F : FloatOps) (st : MState) (ws : List (Char × ℚ)) (cw : Bool)
    (seg_mm max_deg : ℚ) : ℤ :=
  max 1 (max (steps_len F st ws cw seg_mm) (steps_ang F st ws cw max_deg))

/-- `linearize_arc_points` (lines 149-179): sample the circle at angles
`a0 + da*(i/steps)` for `i = 1..steps`, forcing the final point to the exact
resolved end coordinate. -/
def linearize_arc_points (F : FloatOps) (st : MState) (ws : List (Char × ℚ))
    (cw : Bool) (seg_mm max_deg : ℚ) : List (ℚ × ℚ) :=
  let n := (arc_steps F st ws cw seg_mm max_deg).toNat
  let c := arc_center st ws
  let a0 := arc_a0 F st ws
  let da := arc_sweep F st ws cw
  let r := arc_radius F st ws
  (List.range n).map (fun j =>
    if j + 1 = n then arc_end_abs st ws
    else
      let t : ℚ := ((j + 1 : ℕ) : ℚ) / ((n : ℕ) : ℚ)
      let ai := a0 + da * t
      (c.1 + r * F.cos ai, c.2 + r * F.sin ai))

/-- A bounding box as the tuple `(minx, maxx, miny, maxy)`. -/
abbrev BBox := ℚ × ℚ × ℚ × ℚ

/-- `_in_bed` (lines 182-183): inclusive bed-rectangle test. -/
def in_bed (x y xmin xmax ymin ymax : ℚ) : Bool :=
  decide (xmin ≤ x ∧ x ≤ xmax ∧ ymin ≤ y ∧ y ≤ ymax)

/-- `_is_extruding_move` (lines 186-192). -/
def is_extruding_move (st : MState) (ws : List (Char × ℚ)) : Bool :=
  match getWord ws 'E' with
  | none => false
  | some ew => if st.abs_e then decide (st.e < ew) else decide (0 < ew)

/-- The shared `st.e = words["E"] if st.abs_e else (st.e + words["E"])` update,
guarded by `"E" in words` (lines 257-258, 271-272, 277-278, ...). -/
def upd_e (st : MState) (ws : List (Char × ℚ)) : MState :=
  match getWord ws 'E' with
  | some ev => { st with e := if st.abs_e then ev else st.e + ev }
  | none => st

/-- The `upd` accumulator of the bounds passes (lines 212-215, 296-299): the
float code starts from `±inf` sentinels; over `ℚ` the not-yet-touched box is
`none` and each accepted point widens it with `min`/`max`. -/
def upd_box : Option BBox → ℚ × ℚ → Option BBox
  | none, (px, py) => some (px, px, py, py)
  | some (a, b, c, d), (px, py) => some (min a px, max b px, min c py, max d py)

/-- The code part of a line (`split_comment(line)[0]`). -/
def lineCode (line : String) : List Char := (split_comment line.data).1

/-- The comment part of a line (`split_comment(line)[1]`). -/
def lineComment (line : String) : List Char := (split_comment line.data).2

/-- `up = code.strip().upper()` as used by every pass. -/
def lineUp (line : String) : List Char := upperL (stripWs (lineCode line))

/-- One line of `compute_inbed_extruding_bounds_original` (lines 217-278):
returns the updated state and the list of points accepted into the box by
this line, in the order the source's `upd` calls would run. -/
def lineA (F : FloatOps) (lin : Bool) (seg deg bxm bxM bym byM : ℚ)
    (st : MState) (line : String) : MState × List (ℚ × ℚ) :=
  let code := lineCode line
  let s := stripWs code
  if s.isEmpty then (st, [])
  else
    let up := upperL s
    match apply_modal st up with
    | some st' => (st', [])
    | none =>
      if is_arc up then
        let ws := parse_words code
        let pts :=
          if is_extruding_move st ws then
            if lin then
              (linearize_arc_points F st ws (first_tok_g2 up) seg deg).filter
                (fun p => in_bed p.1 p.2 bxm bxM bym byM)
            else
              let q := arc_end_abs st ws
              if in_bed q.1 q.2 bxm bxM bym byM then [q] else []
          else []
        let q := arc_end_abs st ws
        ({ upd_e st ws with x := q.1, y := q.2 }, pts)
      else if is_move up then
        let ws := parse_words code
        let x1 := wget ws 'X' st.x
        let y1 := wget ws 'Y' st.y
        let pts :=
          if is_extruding_move st ws && in_bed x1 y1 bxm bxM bym byM
          then [(x1, y1)] else []
        ({ upd_e st ws with x := x1, y := y1 }, pts)
      else if 'E' ∈ up then (upd_e st (parse_words code), [])
      else (st, [])

/-- Fold step of pass A: run `lineA`, widen the box with its points. -/
def boundsA_step (F : FloatOps) (lin : Bool) (seg deg bxm bxM bym byM : ℚ)
    (acc : MState × Option BBox) (line : String) : MState × Option BBox :=
  let r := lineA F lin seg deg bxm bxM bym byM acc.1 line
  (r.1, r.2.foldl upd_box acc.2)

/-- All points pass A accepts over a document, threading the modal state. -/
def pointsA (F : FloatOps) (lin : Bool) (seg deg bxm bxM bym byM : ℚ) :
    MState → List String → List (ℚ × ℚ)
  | _, [] => []
  | st, l :: ls =>
    let r := lineA F lin seg deg bxm bxM bym byM st l
    r.2 ++ pointsA F lin seg deg bxm bxM bym byM r.1 ls

/-- `compute_inbed_extruding_bounds_original` (lines 204-282): fold the
document, then map the empty sentinel to the zero box (lines 280-282). -/
def compute_inbed_extruding_bounds_original (F : FloatOps) (lin : Bool)
    (seg deg bxm bxM bym byM : ℚ) (doc : List String) : BBox :=
  ((doc.foldl (boundsA_step F lin seg deg bxm bxM bym byM)
      (initState, none)).2).getD (0, 0, 0, 0)

/-- `_choose_translation` (lines 195-200). -/
def choose_translation (lo hi : ℚ) (mode : String) : ℚ :=
  if mode = "center" then (lo + hi) / 2
  else if lo ≤ 0 ∧ 0 ≤ hi then 0
  else if |lo| < |hi| then lo else hi

/-- Abort message of lines 324/595 (the source's `SystemExit` text). -/
def msgRecenterAbs : String :=
  "prusaslicer-skew-fix: ERROR: --recenter-to-bed requires absolute XY (G90)."

/-- Abort message of line 656. -/
def msgRelSkew : String :=
  "prusaslicer-skew-fix: ERROR: relative XY (G91) not supported for skew output."

/-- Abort message of lines 379-384 (the source also interpolates the computed
bounds into the text; the formatted numbers are elided here). -/
def msgNoFit : String :=
  "prusaslicer-skew-fix: ERROR: Model geometry cannot fit within bed after skew."

/-- Lines 373-388 of `compute_translation_for_bounds`: the feasible-interval
computation, infeasibility test and policy choice applied to a known box. -/
def translation_from_box (minx maxx miny maxy bxm bxM bym byM margin : ℚ)
    (mode : String) (eps : ℚ) : Except String (ℚ × ℚ × BBox) :=
  let dx_lo := (bxm + margin) - minx
  let dx_hi := (bxM - margin) - maxx
  let dy_lo := (bym + margin) - miny
  let dy_hi := (byM - margin) - maxy
  if eps < dx_lo - dx_hi ∨ eps < dy_lo - dy_hi then Except.error msgNoFit
  else Except.ok (choose_translation dx_lo dx_hi mode,
    choose_translation dy_lo dy_hi mode, (minx, maxx, miny, maxy))

/-- One line of `compute_translation_for_bounds` (lines 301-368): like
`lineA`, but any non-blank non-modal line in relative-XY mode is a hard error
(line 323-324), and each accepted point is accumulated after the shear
(in-bed is tested on the unsheared point, lines 335-336, 340-342, 356-358). -/
def lineB (F : FloatOps) (k y_ref : ℚ) (lin : Bool)
    (seg deg bxm bxM bym byM : ℚ) (st : MState) (line : String) :
    Except String (MState × List (ℚ × ℚ)) :=
  let code := lineCode line
  let s := stripWs code
  if s.isEmpty then Except.ok (st, [])
  else
    let up := upperL s
    match apply_modal st up with
    | some st' => Except.ok (st', [])
    | none =>
      if st.abs_xy = false then Except.error msgRecenterAbs
      else if is_arc up then
        let ws := parse_words code
        let pts :=
          if is_extruding_move st ws then
            if lin then
              (linearize_arc_points F st ws (first_tok_g2 up) seg deg).filterMap
                (fun p => if in_bed p.1 p.2 bxm bxM bym byM
                  then some (apply_skew_abs p.1 p.2 k y_ref) else none)
            else
              let q := arc_end_abs st ws
              if in_bed q.1 q.2 bxm bxM bym byM
              then [apply_skew_abs q.1 q.2 k y_ref] else []
          else []
        let q := arc_end_abs st ws
        Except.ok ({ upd_e st ws with x := q.1, y := q.2 }, pts)
      else if is_move up then
        let ws := parse_words code
        let x1 := wget ws 'X' st.x
        let y1 := wget ws 'Y' st.y
        let pts :=
          if is_extruding_move st ws && in_bed x1 y1 bxm bxM bym byM
          then [apply_skew_abs x1 y1 k y_ref] else []
        Except.ok ({ upd_e st ws with x := x1, y := y1 }, pts)
      else if 'E' ∈ up then Except.ok (upd_e st (parse_words code), [])
      else Except.ok (st, [])

/-- Fold step of pass B. -/
def boundsB_step (F : FloatOps) (k y_ref : ℚ) (lin : Bool)
    (seg deg bxm bxM bym byM : ℚ) (acc : MState × Option BBox) (line : String) :
    Except String (MState × Option BBox) :=
  match lineB F k y_ref lin seg deg bxm bxM bym byM acc.1 line with
  | Except.error msg => Except.error msg
  | Except.ok (st', ps) => Except.ok (st', ps.foldl upd_box acc.2)

/-- All (sheared) points pass B accepts over a document; stops contributing
at the first erroring line. -/
def pointsB (F : FloatOps) (k y_ref : ℚ) (lin : Bool)
    (seg deg bxm bxM bym byM : ℚ) : MState → List String → List (ℚ × ℚ)
  | _, [] => []
  | st, l :: ls =>
    match lineB F k y_ref lin seg deg bxm bxM bym byM st l with
    | Except.error _ => []
    | Except.ok (st', ps) => ps ++ pointsB F k y_ref lin seg deg bxm bxM bym byM st' ls

/-- `compute_translation_for_bounds` (lines 285-388): scan, then either the
zero result for the empty sentinel (lines 370-371) or the interval solve. -/
def compute_translation_for_bounds (F : FloatOps) (k y_ref : ℚ) (lin : Bool)
    (seg deg bxm bxM bym byM margin : ℚ) (mode : String) (eps : ℚ)
    (doc : List String) : Except String (ℚ × ℚ × BBox) :=
  match doc.foldlM (boundsB_step F k y_ref lin seg deg bxm bxM bym byM)
      (initState, none) with
  | Except.error msg => Except.error msg
  | Except.ok (_, none) => Except.ok (0, 0, (0, 0, 0, 0))
  | Except.ok (_, some (a, b, c, d)) =>
    translation_from_box a b c d bxm bxM bym byM margin mode eps

/-- Round half to even, as Python's fixed-point float formatting does when
the scaled value sits exactly on a half (our `ℚ` model applies it to the
exact mathematical value). -/
def rhe (q : ℚ) : ℤ :=
  let fl := ⌊q⌋
  if q - fl < 1 / 2 then fl
  else if 1 / 2 < q - fl then fl + 1
  else if fl % 2 = 0 then fl else fl + 1

/-- `_fmt_fixed` (lines 62-64): `f"{v:.{places}f}".rstrip("0").rstrip(".")`,
empty result rendered `"0"`.  The fixed-point rendering is: sign taken from
`v`, magnitude `rhe (v * 10^places)` split into integer and zero-padded
fractional digit groups. -/
def fmt_fixed (v : ℚ) (places : ℕ) : String :=
  let n := rhe (v * 10 ^ places)
  let m := n.natAbs
  let ip := m / 10 ^ places
  let fp := m % 10 ^ places
  let fds := Nat.toDigits 10 fp
  let fpad := List.replicate (places - fds.length) '0' ++ fds
  let sgn : List Char := if v < 0 then ['-'] else []
  let sRaw := sgn ++ Nat.toDigits 10 ip ++ (if places = 0 then [] else '.' :: fpad)
  let stripped := rstripCh '.' (rstripCh '0' sRaw)
  if stripped.isEmpty then String.mk ['0'] else String.mk stripped

/-- `fmt_axis` (lines 66-74): X/Y use `xy_places`, everything else
`other_places`. -/
def fmt_axis (axis : Char) (v : ℚ) (xy_places other_places : ℕ) : String :=
  let a := axis.toUpper
  fmt_fixed v (if a = 'X' ∨ a = 'Y' then xy_places else other_places)

/-- The number part of the substitution pattern of `replace_or_append`
(line 82): `(-?\d+(?:\.\d*)?|-?\.\d+)\b`, matched at the head of `cs` with
Python backtracking semantics for the trailing `\b`; returns the matched
length.  Unlike `AXIS_RE`, the trailing word boundary can force the greedy
fractional part to backtrack to just `digits.` (boundary between `.` and a
following word character) or to bare `digits`. -/
def numLenTB (cs : List Char) : Option ℕ :=
  let s0 : ℕ := if cs.head? = some '-' then 1 else 0
  let rest := cs.drop s0
  let d := (rest.takeWhile Char.isDigit).length
  if d ≠ 0 then
    let aft := rest.drop d
    if aft.head? = some '.' then
      let f := ((aft.drop 1).takeWhile Char.isDigit).length
      if f ≠ 0 then
        if wordOpt ((aft.drop (1 + f)).head?) then some (s0 + d + 1)
        else some (s0 + d + 1 + f)
      else
        if wordOpt ((aft.drop 1).head?) then some (s0 + d + 1)
        else some (s0 + d)
    else
      if wordOpt aft.head? then none else some (s0 + d)
  else
    match rest with
    | '.' :: r2 =>
      let f := (r2.takeWhile Char.isDigit).length
      if f ≠ 0 ∧ wordOpt ((r2.drop f).head?) = false then some (s0 + 1 + f)
      else none
    | _ => none

/-- Leftmost match of `(?i)\b{axis}\s*(num)\b` (line 82): scan positions left
to right; at each position require a word boundary before the axis letter,
the (case-insensitive) letter, optional whitespace, then `numLenTB`.
Returns (start index, total match length). -/
def findAxisNum (axis : Char) : Option Char → ℕ → List Char → Option (ℕ × ℕ)
  | _, _, [] => none
  | prev, i, c :: rest =>
    if wordOpt prev = false ∧ c.toUpper = axis then
      let w := (rest.takeWhile isSpaceCh).length
      match numLenTB (rest.drop w) with
      | some n => some (i, 1 + w + n)
      | none => findAxisNum axis (some c) (i + 1) rest
    else findAxisNum axis (some c) (i + 1) rest

/-- `replace_or_append` (lines 78-83): substitute the first match, or append
a space and the new token. -/
def replace_or_append (code : List Char) (axis : Char) (val : ℚ)
    (xy_places other_places : ℕ) : List Char :=
  let a := axis.toUpper
  let tok := a :: (fmt_axis a val xy_places other_places).data
  match findAxisNum a none 0 code with
  | some p => code.take p.1 ++ tok ++ code.drop (p.1 + p.2)
  | none => code ++ ' ' :: tok

/-- `"G1 X"` fragment of the generated arc lines (line 621-622). -/
def sG1X : List Char := ['G', '1', ' ', 'X']

/-- `" Y"` fragment. -/
def sSpY : List Char := [' ', 'Y']

/-- `" E"` fragment. -/
def sSpE : List Char := [' ', 'E']

/-- `" F"` fragment. -/
def sSpF : List Char := [' ', 'F']

/-- The state updates of the rewrite pass's G0/G1 branch (lines 668-675):
X/Y words are stored directly, E resolves by extrusion mode, F is stored,
Z resolves by the XY mode flag. -/
def mv_update (st : MState) (ws : List (Char × ℚ)) : MState :=
  let st1 := match getWord ws 'X' with | some v => { st with x := v } | none => st
  let st2 := match getWord ws 'Y' with | some v => { st1 with y := v } | none => st1
  let st3 := upd_e st2 ws
  let st4 := match getWord ws 'F' with | some v => { st3 with f := some v } | none => st3
  match getWord ws 'Z' with
  | some v => { st4 with z := if st.abs_xy then v else st.z + v }
  | none => st4

/-- One iteration of the rewrite loop (lines 575-678): classify the line,
update state, and produce the emitted output lines.  Note that this loop has
no blank-line skip: a blank or comment-only line reaches the recenter check.
The metadata header block (lines 557-573) precedes the loop and is not part
of the per-line step. -/
def rewrite_step (F : FloatOps) (k y_ref : ℚ) (lin : Bool) (seg deg : ℚ)
    (recenter : Bool) (dx dy : ℚ) (xy_dec oth_dec : ℕ)
    (st : MState) (line : String) : Except String (MState × List String) :=
  let code := lineCode line
  let comment := lineComment line
  let up := upperL (stripWs code)
  match apply_modal st up with
  | some st' => Except.ok (st', [line])
  | none =>
    if recenter = true ∧ st.abs_xy = false then Except.error msgRecenterAbs
    else if is_arc up then
      let ws := parse_words code
      let cw := first_tok_g2 up
      if lin then
        let pts := linearize_arc_points F st ws cw seg deg
        let n := pts.length
        let has_e := whas ws 'E'
        let e0 := st.e
        let ew := wget ws 'E' 0
        let dE : ℚ := if has_e then (if st.abs_e then ew - e0 else ew) else 0
        let e_end : ℚ := if has_e then (if st.abs_e then ew else e0 + ew) else e0
        let fw := getWord ws 'F'
        let outs := pts.enum.map (fun jp =>
          let i := jp.1 + 1
          let q := apply_skew_abs jp.2.1 jp.2.2 k y_ref
          let xs := q.1 + dx
          let ys := q.2 + dy
          let l1 := sG1X ++ (fmt_axis 'X' xs xy_dec oth_dec).data
            ++ sSpY ++ (fmt_axis 'Y' ys xy_dec oth_dec).data
          let l2 :=
            if has_e then
              if st.abs_e then
                let ei := if i = n then e_end else e0 + dE * ((i : ℚ) / (n : ℚ))
                l1 ++ sSpE ++ (fmt_axis 'E' ei xy_dec oth_dec).data
              else l1 ++ sSpE ++ (fmt_axis 'E' (dE / (n : ℚ)) xy_dec oth_dec).data
            else l1
          let l3 :=
            if fw.isSome ∧ i = 1
            then l2 ++ sSpF ++ (fmt_axis 'F' (fw.getD 0) xy_dec oth_dec).data
            else l2
          let l4 :=
            if comment.isEmpty = false ∧ i = 1 then l3 ++ ' ' :: lstripWs comment
            else l3
          String.mk l4)
        let pLast := pts.getLastD (st.x, st.y)
        let st1 := { st with x := pLast.1, y := pLast.2 }
        let st2 := if has_e then { st1 with e := e_end } else st1
        let st3 := match fw with | some fv => { st2 with f := some fv } | none => st2
        Except.ok (st3, outs)
      else
        let q := arc_end_abs st ws
        let st1 := { upd_e st ws with x := q.1, y := q.2 }
        let st2 := match getWord ws 'F' with
          | some fv => { st1 with f := some fv }
          | none => st1
        Except.ok (st2, [line])
    else if is_move up then
      let ws := parse_words code
      let has_x := whas ws 'X'
      let has_y := whas ws 'Y'
      if has_x || has_y then
        if st.abs_xy = false then Except.error msgRelSkew
        else
          let x_t := wget ws 'X' st.x
          let y_t := wget ws 'Y' st.y
          let q := apply_skew_abs x_t y_t k y_ref
          let xs := q.1 + dx
          let ys := q.2 + dy
          let n1 := if has_x then replace_or_append code 'X' xs xy_dec oth_dec else code
          let n2 := if has_y then replace_or_append n1 'Y' ys xy_dec oth_dec else n1
          let outl := String.mk
            (rstripWs n2 ++ (if comment.isEmpty then [] else ' ' :: lstripWs comment))
          Except.ok (mv_update st ws, [outl])
      else Except.ok (mv_update st ws, [line])
    else Except.ok (st, [line])

/-- The whole rewrite output loop (lines 575-678) over a document, excluding
the metadata header block. -/
def rewrite_lines (F : FloatOps) (k y_ref : ℚ) (lin : Bool) (seg deg : ℚ)
    (recenter : Bool) (dx dy : ℚ) (xy_dec oth_dec : ℕ) (doc : List String) :
    Except String (MState × List String) :=
  doc.foldlM (fun acc l =>
    match rewrite_step F k y_ref lin seg deg recenter dx dy xy_dec oth_dec acc.1 l with
    | Except.error m => Except.error m
    | Except.ok r => Except.ok (r.1, acc.2 ++ r.2)) (initState, [])

/-- A concrete oracle used to run the embedding on concrete arcs: it gives
the math library's true values on the axis-aligned rays those arcs consult
(`atan2(0, x>0) = 0`, `atan2(0, x<0) = pi`, `hypot(x, 0) = |x|`,
`cos 0 = 1`, `cos pi = -1`, `sin = 0` on the x-axis), with the rational
`355/113` standing in for `math.pi`. -/
def axisOps : FloatOps where
  cos := fun t => if t = 0 then 1 else if t = 355 / 113 then -1 else 0
  sin := fun _ => 0
  atan2 := fun yv xv => if yv = 0 ∧ xv < 0 then 355 / 113 else 0
  hypot := fun xv yv => if yv = 0 then |xv| else 0
  radians := fun d => d * (355 / 113) / 180
  tan := fun _ => 0
  pi := 355 / 113

/-- Start state for the semicircle arc: current position `(1, 0)`. -/
def stSemi : MState := { x := 1 }

/-- Words of the semicircle arc `G3 X-1 I-1` (end `(-1,0)`, centre `(0,0)`). -/
def wsSemi : List (Char × ℚ) := [('X', -1), ('I', -1)]

/-- Words of the degenerate full-circle arc `G2 I10` from the origin: its
resolved endpoint coincides with its start point. -/
def wsCircle : List (Char × ℚ) := [('I', 10)]

/-- A state with a nonzero extrusion position, for the rewrite-pass E test. -/
def stE5 : MState := { e := 5 }

/-- A relative-XY state, for the mode-error tests. -/
def stRel : MState := { abs_xy := false }

/-- An unrecognized command carrying an E word (`G92` is not a recognized
modal, move or arc command). -/
def lineG92 : String := "G92 E0"

/-- A non-modal, non-move line (fan off). -/
def lineM107 : String := "M107"

/-- A linear move carrying an X word. -/
def lineG1X10 : String := "G1 X10"

/-- Document for the pass-A relative-move test: `G1 X10 E1` is processed in
relative XY mode with last position `(5, 5)`. -/
def docRel : List String := ["G90", "G1 X5 Y5", "G91", "G1 X10 E1"]

/-- Document with no extruding in-bed point (its only extruding endpoint,
`(300, 10)`, lies outside the default 250x220 bed). -/
def docOutBed : List String := ["G90", "G1 X300 Y10 E1"]

/-- Document that enters relative XY mode and then has a non-modal line,
without any extruding point anywhere. -/
def docRelNoE : List String := ["G91", "M107"]

/-- The `center` recenter mode string. -/
def modeCenter : String := "center"

/-- The `clamp` recenter mode string. -/
def modeClamp : String := "clamp"

/-- The token `_fmt_fixed(100, 0)` produces. -/
def sOne : String := "1"

/-- Document with a single extruding in-bed endpoint at `(20, 20)`. -/
def docInBed : List String := ["G90", "G1 X20 Y20 E1"]

/-- The generated point list has exactly `steps` elements. -/
theorem linearize_length (F : FloatOps) (st : MState) (ws : List (Char × ℚ))
    (cw : Bool) (seg deg : ℚ) :
    (linearize_arc_points F st ws cw seg deg).length =
      (arc_steps F st ws cw seg deg).toNat := by
  simp [linearize_arc_points]

/-- `steps = max(1, ...)` is at least one. -/
theorem arc_steps_pos (F : FloatOps) (st : MState) (ws : List (Char × ℚ))
    (cw : Bool) (seg deg : ℚ) : 1 ≤ arc_steps F st ws cw seg deg :=
  le_max_left _ _

/-- Last element of a mapped range. -/
theorem rangeMap_getLast? {α : Type} (f : ℕ → α) (n : ℕ) (h : 1 ≤ n) :
    ((List.range n).map f).getLast? = some (f (n - 1)) := by
  obtain ⟨m, rfl⟩ : ∃ m, n = m + 1 := ⟨n - 1, by omega⟩
  rw [List.range_succ, List.map_append]
  simp

/-- Claim C1: `applyShear(x, y, k, yRef)` is exactly
`(x + (y - yRef) * k, y)`; the Y component is always returned unchanged, and
a point on the reference line (`y = yRef`) is returned unchanged. -/
theorem C1_shear_exact : ∀ x y k y_ref : ℚ,
    apply_skew_abs x y k y_ref = (x + (y - y_ref) * k, y) ∧
    (apply_skew_abs x y k y_ref).2 = y ∧
    (y = y_ref → apply_skew_abs x y k y_ref = (x, y)) := by
  intro x y k y_ref
  refine ⟨rfl, rfl, fun h => ?_⟩
  simp [apply_skew_abs, h]

/-- Witness for C1 at `x = 10`, `y = yRef = 100`, `k = 3/2`. -/
theorem C1_witness : apply_skew_abs 10 100 (3 / 2) 100 = (10, 100) :=
  (C1_shear_exact 10 100 (3 / 2) 100).2.2 rfl

/-- Claim C10: for every oracle, modal state, axis-word map, direction and
targets (zero and negative included), `linearize_arc_points` returns at
least one point, so `pts[-1]` and divisions by `len(pts)` are well-defined. -/
theorem C10_linearize_nonempty :
    ∀ (F : FloatOps) (st : MState) (ws : List (Char × ℚ)) (cw : Bool)
      (seg deg : ℚ), linearize_arc_points F st ws cw seg deg ≠ [] := by
  intro F st ws cw seg deg
  have h1 : (1 : ℤ) ≤ arc_steps F st ws cw seg deg := arc_steps_pos F st ws cw seg deg
  have h2 : (linearize_arc_points F st ws cw seg deg).length =
      (arc_steps F st ws cw seg deg).toNat := linearize_length F st ws cw seg deg
  intro hnil
  rw [hnil] at h2
  simp at h2
  omega

/-- Claim C2 (amended): the generated list is nonempty and its last element
is exactly the arc's resolved absolute endpoint, for every oracle. -/
theorem C2_last_is_endpoint :
    ∀ (F : FloatOps) (st : MState) (ws : List (Char × ℚ)) (cw : Bool)
      (seg deg : ℚ),
      (linearize_arc_points F st ws cw seg deg).getLast? =
        some (arc_end_abs st ws) := by
  intro F st ws cw seg deg
  have h1 : (1 : ℤ) ≤ arc_steps F st ws cw seg deg := arc_steps_pos F st ws cw seg deg
  have h2 : 1 ≤ (arc_steps F st ws cw seg deg).toNat := by omega
  unfold linearize_arc_points
  rw [rangeMap_getLast? _ _ h2]
  rw [if_pos (by omega)]

/-- Counterexample for C2 as stated: the degenerate full-circle arc `G2 I10`
from the origin (endpoint = start point) generates exactly the start point,
so the output does include the arc's start point. -/
theorem C2_counterexample :
    (initState.x, initState.y) ∈
      linearize_arc_points axisOps initState wsCircle true (1 / 5) 5 := by
  decide

/-- When the oracle's `hypot` is nonnegative (as `math.hypot` is), the
computed arc length is nonnegative. -/
theorem arc_length_nonneg (F : FloatOps) (st : MState) (ws : List (Char × ℚ))
    (cw : Bool) (hh : ∀ a b : ℚ, 0 ≤ F.hypot a b) :
    0 ≤ arc_length F st ws cw := by
  unfold arc_length
  split
  · exact mul_nonneg (abs_nonneg _) (by linarith)
  · exact hh _ _

/-- Division of a nonnegative numerator by a smaller positive denominator
does not decrease the quotient. -/
theorem div_le_div_nonneg_num (a b c : ℚ) (ha : 0 ≤ a) (hb : 0 < b)
    (hbc : b ≤ c) : a / c ≤ a / b := by
  rw [div_eq_mul_inv, div_eq_mul_inv]
  exact mul_le_mul_of_nonneg_left (inv_anti₀ hb hbc) ha

/-- Claim C8 (amended): the number of generated segments is exactly
`max(1, L, A)` where `L = ceil(arcLength / max(targetChord, 1e-6))` when the
chord target is positive (else 1) and
`A = ceil(|sweep| / max(radians(targetAngle), 1e-9))` when the angle target
is positive (else 1); and for positive targets, decreasing either target
(keeping it positive) never decreases the segment count, given that the
oracle's `hypot` is nonnegative and its `radians` is monotone (both true of
the math library). -/
theorem C8_segment_count :
    (∀ (F : FloatOps) (st : MState) (ws : List (Char × ℚ)) (cw : Bool)
      (seg deg : ℚ),
      (linearize_arc_points F st ws cw seg deg).length =
        (max 1 (max
          (if 0 < seg then ⌈arc_length F st ws cw / max seg (1 / 1000000)⌉ else 1)
          (if 0 < deg then
            ⌈|arc_sweep F st ws cw| / max (F.radians deg) (1 / 1000000000)⌉
          else 1))).toNat)
    ∧ (∀ (F : FloatOps) (st : MState) (ws : List (Char × ℚ)) (cw : Bool)
      (seg1 seg2 deg1 deg2 : ℚ),
      (∀ a b : ℚ, 0 ≤ F.hypot a b) → Monotone F.radians →
      0 < seg2 → seg2 ≤ seg1 → 0 < deg2 → deg2 ≤ deg1 →
      (linearize_arc_points F st ws cw seg1 deg1).length ≤
        (linearize_arc_points F st ws cw seg2 deg2).length) := by
  constructor
  · intro F st ws cw seg deg
    rw [linearize_length]
    simp only [arc_steps, steps_len, steps_ang]
  · intro F st ws cw seg1 seg2 deg1 deg2 hh hrad hs2 hs21 hd2 hd21
    rw [linearize_length, linearize_length]
    have hs1 : 0 < seg1 := lt_of_lt_of_le hs2 hs21
    have hd1 : 0 < deg1 := lt_of_lt_of_le hd2 hd21
    have hL : steps_len F st ws cw seg1 ≤ steps_len F st ws cw seg2 := by
      unfold steps_len
      rw [if_pos hs1, if_pos hs2]
      apply Int.ceil_le_ceil
      apply div_le_div_nonneg_num
      · exact arc_length_nonneg F st ws cw hh
      · exact lt_max_of_lt_right (by norm_num)
      · exact max_le_max hs21 le_rfl
    have hA : steps_ang F st ws cw deg1 ≤ steps_ang F st ws cw deg2 := by
      unfold steps_ang
      rw [if_pos hd1, if_pos hd2]
      apply Int.ceil_le_ceil
      apply div_le_div_nonneg_num
      · exact abs_nonneg _
      · exact lt_max_of_lt_right (by norm_num)
      · exact max_le_max (hrad hd21) le_rfl
    have : arc_steps F st ws cw seg1 deg1 ≤ arc_steps F st ws cw seg2 deg2 := by
      unfold arc_steps
      exact max_le_max le_rfl (max_le_max hL hA)
    omega

/-- Counterexample for C8 as stated: for the semicircle `G3 X-1 I-1` from
`(1, 0)` (arc length `pi`, modelled as `355/113`) with chord target
`5e-7` and the angle constraint disabled, the code generates
`ceil(arc_len / 1e-6) = 3141593` segments (the divisor is clamped at 1e-6),
while the claim's formula `max(ceil(arcLength / targetChord), 1)` demands
`6283186`. -/
theorem C8_counterexample :
    (linearize_arc_points axisOps stSemi wsSemi false (1 / 2000000) 0).length
      = 3141593 ∧
    (max 1 ⌈arc_length axisOps stSemi wsSemi false / (1 / 2000000)⌉).toNat
      = 6283186 ∧
    (3141593 : ℕ) ≠ 6283186 := by
  refine ⟨?_, by decide, by decide⟩
  rw [linearize_length]
  decide

/-- Witness for C8's monotonicity part: halving the chord target from `1/5`
to `1/10` on the semicircle does not decrease the segment count. -/
theorem C8_witness :
    (linearize_arc_points axisOps stSemi wsSemi false (1 / 5) 5).length ≤
      (linearize_arc_points axisOps stSemi wsSemi false (1 / 10) 5).length := by
  apply C8_segment_count.2 axisOps stSemi wsSemi false (1 / 5) (1 / 10) 5 5
  · intro a b
    by_cases hb : b = 0 <;> simp [axisOps, hb, abs_nonneg]
  · intro a b hab
    simp only [axisOps]
    have h1 : a * (355 / 113) ≤ b * (355 / 113) :=
      mul_le_mul_of_nonneg_right hab (by norm_num)
    exact div_le_div_of_nonneg_right h1 (by norm_num)
  · norm_num
  · norm_num
  · norm_num
  · norm_num

/-- Claim C3: once at least one extruding in-bed point has been accumulated
(the scan's box is `some`), the solver applies `translation_from_box`; that
computation (i) errors exactly when, on some axis, the interval's lower bound
`bedMin+margin-minCoord` exceeds its upper bound `bedMax-margin-maxCoord` by
more than `eps`, (ii) otherwise returns the per-axis policy choice over those
interval bounds, (iii) `center` takes the interval midpoint, (iv) `clamp`
takes 0 whenever 0 lies in the interval and otherwise an interval endpoint of
minimal magnitude, and (v) a box exactly fitting the bed minus margin (zero
slack) yields shift `(0, 0)` under `clamp` with no error. -/
theorem C3_recenter_solver :
    (∀ a b c d bxm bxM bym byM m mode eps,
      (∃ msg, translation_from_box a b c d bxm bxM bym byM m mode eps =
        Except.error msg) ↔
      (eps < ((bxm + m) - a) - ((bxM - m) - b) ∨
       eps < ((bym + m) - c) - ((byM - m) - d)))
    ∧ (∀ a b c d bxm bxM bym byM m mode eps,
      ¬(eps < ((bxm + m) - a) - ((bxM - m) - b) ∨
        eps < ((bym + m) - c) - ((byM - m) - d)) →
      translation_from_box a b c d bxm bxM bym byM m mode eps =
        Except.ok (choose_translation ((bxm + m) - a) ((bxM - m) - b) mode,
          choose_translation ((bym + m) - c) ((byM - m) - d) mode,
          (a, b, c, d)))
    ∧ (∀ lo hi, choose_translation lo hi modeCenter = (lo + hi) / 2)
    ∧ (∀ lo hi,
      (lo ≤ 0 ∧ 0 ≤ hi → choose_translation lo hi modeClamp = 0) ∧
      (¬(lo ≤ 0 ∧ 0 ≤ hi) →
        (choose_translation lo hi modeClamp = lo ∨
          choose_translation lo hi modeClamp = hi) ∧
        |choose_translation lo hi modeClamp| = min |lo| |hi|))
    ∧ (∀ bxm bxM bym byM m eps, 0 ≤ eps →
      translation_from_box (bxm + m) (bxM - m) (bym + m) (byM - m)
          bxm bxM bym byM m modeClamp eps =
        Except.ok (0, 0, (bxm + m, bxM - m, bym + m, byM - m)))
    ∧ (∀ F k y_ref lin seg deg bxm bxM bym byM m mode eps doc st a b c d,
      doc.foldlM (boundsB_step F k y_ref lin seg deg bxm bxM bym byM)
          (initState, none) = Except.ok (st, some (a, b, c, d)) →
      compute_translation_for_bounds F k y_ref lin seg deg bxm bxM bym byM
          m mode eps doc =
        translation_from_box a b c d bxm bxM bym byM m mode eps) := by
  refine ⟨?_, ?_, ?_, ?_, ?_, ?_⟩
  · intro a b c d bxm bxM bym byM m mode eps
    unfold translation_from_box
    dsimp only
    by_cases h : eps < ((bxm + m) - a) - ((bxM - m) - b) ∨
        eps < ((bym + m) - c) - ((byM - m) - d)
    · simp only [if_pos h]
      exact ⟨fun _ => h, fun _ => ⟨msgNoFit, rfl⟩⟩
    · simp only [if_neg h]
      constructor
      · rintro ⟨msg, hmsg⟩
        cases hmsg
      · intro hcon
        exact absurd hcon h
  · intro a b c d bxm bxM bym byM m mode eps h
    unfold translation_from_box
    dsimp only
    rw [if_neg h]
  · intro lo hi
    simp [choose_translation, modeCenter]
  · intro lo hi
    constructor
    · intro h
      simp [choose_translation, modeClamp, h]
    · intro h
      simp only [choose_translation, modeClamp]
      rw [if_neg (by decide), if_neg h]
      by_cases hlh : |lo| < |hi|
      · rw [if_pos hlh]
        exact ⟨Or.inl rfl, (min_eq_left hlh.le).symm⟩
      · rw [if_neg hlh]
        exact ⟨Or.inr rfl, (min_eq_right (le_of_not_lt hlh)).symm⟩
  · intro bxm bxM bym byM m eps heps
    unfold translation_from_box
    dsimp only
    rw [if_neg (by push_neg; constructor <;> linarith)]
    simp [choose_translation, modeClamp, sub_self]
  · intro F k y_ref lin seg deg bxm bxM bym byM m mode eps doc st a b c d h
    unfold compute_translation_for_bounds
    rw [h]

/-- Witness for C3: a box that cannot fit (lower bound exceeds upper by more
than eps) errors; a feasible box under `center` gets the midpoint; `clamp`
returns 0 when 0 is feasible and the smaller-magnitude endpoint otherwise;
the zero-slack exact fit yields `(0, 0)`; and a scan with one accumulated
point hands its box to `translation_from_box`. -/
theorem C3_witness :
    (∃ msg, translation_from_box (-10) 95 0 50 0 100 0 100 0 modeClamp (1 / 100)
      = Except.error msg)
    ∧ translation_from_box 10 90 10 90 0 100 0 100 0 modeCenter (1 / 100)
      = Except.ok (0, 0, (10, 90, 10, 90))
    ∧ choose_translation (-1) 5 modeClamp = 0
    ∧ ((choose_translation 3 5 modeClamp = 3 ∨ choose_translation 3 5 modeClamp = 5)
        ∧ |choose_translation 3 5 modeClamp| = min |(3 : ℚ)| |(5 : ℚ)|)
    ∧ translation_from_box (0 + 0) (100 - 0) (0 + 0) (100 - 0) 0 100 0 100 0
        modeClamp (1 / 100)
      = Except.ok (0, 0, (0 + 0, 100 - 0, 0 + 0, 100 - 0))
    ∧ compute_translation_for_bounds axisOps 0 0 false (1 / 5) 5 0 250 0 220 0
        modeClamp (1 / 100) docInBed
      = translation_from_box 20 20 20 20 0 250 0 220 0 modeClamp (1 / 100) := by
  refine ⟨(C3_recenter_solver.1 (-10) 95 0 50 0 100 0 100 0 modeClamp
      (1 / 100)).mpr (by norm_num), ?_,
    (C3_recenter_solver.2.2.2.1 (-1) 5).1 (by norm_num),
    (C3_recenter_solver.2.2.2.1 3 5).2 (by norm_num),
    C3_recenter_solver.2.2.2.2.1 0 100 0 100 0 (1 / 100) (by norm_num),
    C3_recenter_solver.2.2.2.2.2 axisOps 0 0 false (1 / 5) 5 0 250 0 220 0
      modeClamp (1 / 100) docInBed ⟨true, true, true, 20, 20, 0, 1, none⟩
      20 20 20 20 (by rfl)⟩
  rw [C3_recenter_solver.2.1 10 90 10 90 0 100 0 100 0 modeCenter (1 / 100)
    (by norm_num)]
  rfl

/-- A `MOVE_RE` match starts with `G0` or `G1`. -/
theorem move_shape (up : List Char) (h : is_move up = true) :
    ∃ c rest, up = 'G' :: c :: rest ∧ (c = '0' ∨ c = '1') := by
  rcases up with _ | ⟨g, _ | ⟨c, rest⟩⟩
  · simp [is_move, matchGd] at h
  · simp [is_move, matchGd] at h
  · simp only [is_move, matchGd, Bool.or_eq_true, Bool.and_eq_true,
      beq_iff_eq] at h
    rcases h with ⟨⟨hg, hc⟩, -⟩ | ⟨⟨hg, hc⟩, -⟩ <;> subst hg <;> subst hc
    · exact ⟨'0', rest, rfl, Or.inl rfl⟩
    · exact ⟨'1', rest, rfl, Or.inr rfl⟩

/-- A `G0`/`G1` line never matches any of the six modal prefixes. -/
theorem apply_modal_none_of_move (st : MState) (up : List Char)
    (h : is_move up = true) : apply_modal st up = none := by
  obtain ⟨c, rest, rfl, hc⟩ := move_shape up h
  rcases hc with rfl | rfl <;> rfl

/-- A `G0`/`G1` line never matches `ARC_RE`. -/
theorem is_arc_false_of_move (up : List Char) (h : is_move up = true) :
    is_arc up = false := by
  obtain ⟨c, rest, rfl, hc⟩ := move_shape up h
  rcases hc with rfl | rfl <;> rfl

/-- Claim C4: in the rewrite pass with recentering enabled, every line that
is not one of the six modal commands is a hard error whenever the tracked XY
mode is relative, whatever the line is; with recentering disabled, a G0/G1
line carrying an X or Y word in relative XY mode is a hard error.  Both
checks look only at the tracked `abs_xy` flag (the state is otherwise
arbitrary). -/
theorem C4_relative_mode_errors :
    (∀ (F : FloatOps) (k y_ref : ℚ) (lin : Bool) (seg deg dx dy : ℚ)
      (xy_dec oth_dec : ℕ) (st : MState) (line : String),
      st.abs_xy = false → apply_modal st (lineUp line) = none →
      rewrite_step F k y_ref lin seg deg true dx dy xy_dec oth_dec st line =
        Except.error msgRecenterAbs)
    ∧ (∀ (F : FloatOps) (k y_ref : ℚ) (lin : Bool) (seg deg dx dy : ℚ)
      (xy_dec oth_dec : ℕ) (st : MState) (line : String),
      st.abs_xy = false → is_move (lineUp line) = true →
      (whas (parse_words (lineCode line)) 'X' = true ∨
        whas (parse_words (lineCode line)) 'Y' = true) →
      rewrite_step F k y_ref lin seg deg false dx dy xy_dec oth_dec st line =
        Except.error msgRelSkew) := by
  constructor
  · intro F k y_ref lin seg deg dx dy xy_dec oth_dec st line habs hmodal
    simp only [lineUp] at hmodal
    simp only [rewrite_step]
    rw [hmodal]
    simp [habs]
  · intro F k y_ref lin seg deg dx dy xy_dec oth_dec st line habs hmove hxy
    have hmodal := apply_modal_none_of_move st (lineUp line) hmove
    have harc := is_arc_false_of_move (lineUp line) hmove
    simp only [lineUp] at hmodal harc hmove
    simp only [rewrite_step]
    rw [hmodal]
    rcases hxy with hx | hy
    · simp [harc, hmove, habs, hx]
    · simp [harc, hmove, habs, hy]

/-- Witness for C4: a comment-only fan command under G91 with recentering
errors, and a G1 with an X word under G91 without recentering errors. -/
theorem C4_witness :
    rewrite_step axisOps 0 0 false (1 / 5) 5 true 0 0 3 5 stRel lineM107 =
      Except.error msgRecenterAbs
    ∧ rewrite_step axisOps 0 0 false (1 / 5) 5 false 0 0 3 5 stRel lineG1X10 =
      Except.error msgRelSkew :=
  ⟨C4_relative_mode_errors.1 axisOps 0 0 false (1 / 5) 5 0 0 3 5 stRel
      lineM107 rfl rfl,
    C4_relative_mode_errors.2 axisOps 0 0 false (1 / 5) 5 0 0 3 5 stRel
      lineG1X10 rfl rfl (Or.inl rfl)⟩

/-- Claim C5 (amended): in both read-only bounds scans, a non-blank line that
is neither modal nor a move nor an arc but carries an E word updates only the
tracked `e` (replacing under absolute extrusion, accumulating under relative)
and accepts no points; the rewrite pass, however, passes any such
unrecognized line through with NO state change at all. -/
theorem C5_unrecognized_e_lines :
    (∀ (F : FloatOps) (lin : Bool) (seg deg bxm bxM bym byM : ℚ)
      (st : MState) (line : String) (ev : ℚ),
      (stripWs (lineCode line)).isEmpty = false →
      apply_modal st (lineUp line) = none →
      is_arc (lineUp line) = false →
      is_move (lineUp line) = false →
      'E' ∈ lineUp line →
      getWord (parse_words (lineCode line)) 'E' = some ev →
      lineA F lin seg deg bxm bxM bym byM st line =
        ({ st with e := if st.abs_e then ev else st.e + ev }, []))
    ∧ (∀ (F : FloatOps) (k y_ref : ℚ) (lin : Bool) (seg deg bxm bxM bym byM : ℚ)
      (st : MState) (line : String) (ev : ℚ),
      st.abs_xy = true →
      (stripWs (lineCode line)).isEmpty = false →
      apply_modal st (lineUp line) = none →
      is_arc (lineUp line) = false →
      is_move (lineUp line) = false →
      'E' ∈ lineUp line →
      getWord (parse_words (lineCode line)) 'E' = some ev →
      lineB F k y_ref lin seg deg bxm bxM bym byM st line =
        Except.ok ({ st with e := if st.abs_e then ev else st.e + ev }, []))
    ∧ (∀ (F : FloatOps) (k y_ref : ℚ) (lin : Bool) (seg deg dx dy : ℚ)
      (xy_dec oth_dec : ℕ) (recenter : Bool) (st : MState) (line : String),
      apply_modal st (lineUp line) = none →
      is_arc (lineUp line) = false →
      is_move (lineUp line) = false →
      (recenter = true → st.abs_xy = true) →
      rewrite_step F k y_ref lin seg deg recenter dx dy xy_dec oth_dec st line =
        Except.ok (st, [line])) := by
  refine ⟨?_, ?_, ?_⟩
  · intro F lin seg deg bxm bxM bym byM st line ev hs hmodal harc hmove hE hw
    simp only [lineUp] at hmodal harc hmove hE
    simp only [lineA]
    rw [hs, hmodal]
    simp [harc, hmove, hE, upd_e, hw]
  · intro F k y_ref lin seg deg bxm bxM bym byM st line ev habs hs hmodal
      harc hmove hE hw
    simp only [lineUp] at hmodal harc hmove hE
    simp only [lineB]
    rw [hs, hmodal]
    simp [habs, harc, hmove, hE, upd_e, hw]
  · intro F k y_ref lin seg deg dx dy xy_dec oth_dec recenter st line hmodal
      harc hmove hrec
    simp only [lineUp] at hmodal harc hmove
    simp only [rewrite_step]
    rw [hmodal]
    have hcond : ¬(recenter = true ∧ st.abs_xy = false) := by
      rintro ⟨h1, h2⟩
      rw [hrec h1] at h2
      cases h2
    simp [hcond, harc, hmove]

/-- Counterexample for C5 as stated: in the rewrite pass, the unrecognized
line `G92 E0` (E word present, absolute extrusion) is passed through and the
tracked `e` stays `5` instead of being replaced by the E word `0`. -/
theorem C5_counterexample :
    rewrite_step axisOps 0 0 false (1 / 5) 5 false 0 0 3 5 stE5 lineG92 =
      Except.ok (stE5, [lineG92])
    ∧ getWord (parse_words (lineCode lineG92)) 'E' = some 0
    ∧ stE5.abs_e = true ∧ stE5.e = 5 ∧ (5 : ℚ) ≠ 0 :=
  ⟨rfl, rfl, rfl, rfl, by decide⟩

/-- Witness for C5: `G92 E0` updates `e` to 0 in both bounds scans and is a
state-preserving pass-through in the rewrite pass. -/
theorem C5_witness :
    lineA axisOps false (1 / 5) 5 0 250 0 220 stE5 lineG92 =
      ({ stE5 with e := 0 }, [])
    ∧ lineB axisOps 0 0 false (1 / 5) 5 0 250 0 220 stE5 lineG92 =
      Except.ok ({ stE5 with e := 0 }, [])
    ∧ rewrite_step axisOps 0 0 false (1 / 5) 5 false 0 0 3 5 stE5 lineG92 =
      Except.ok (stE5, [lineG92]) :=
  ⟨C5_unrecognized_e_lines.1 axisOps false (1 / 5) 5 0 250 0 220 stE5 lineG92
      0 rfl rfl rfl rfl (by decide) rfl,
    C5_unrecognized_e_lines.2.1 axisOps 0 0 false (1 / 5) 5 0 250 0 220 stE5
      lineG92 0 rfl rfl rfl rfl rfl (by decide) rfl,
    C5_unrecognized_e_lines.2.2 axisOps 0 0 false (1 / 5) 5 0 0 3 5 false
      stE5 lineG92 rfl rfl rfl (fun h => nomatch h)⟩

/-- Claim C6 evaluated at the failing input: in the original-bounds scan,
after `G90; G1 X5 Y5; G91`, the move `G1 X10 E1` is resolved by taking the
X word as an absolute coordinate (endpoint `(10, 5)`, box `(10,10,5,5)`),
not by adding it to the last position as the claimed relative rule requires
(endpoint `(15, 5)`, box `(15,15,5,5)`); `_arc_end_abs` itself does follow
the claimed rule on the same state and words. -/
theorem C6_passA_ignores_relative :
    compute_inbed_extruding_bounds_original axisOps false (1 / 5) 5 0 250 0 220
      docRel = (10, 10, 5, 5)
    ∧ ((10 : ℚ), (10 : ℚ), (5 : ℚ), (5 : ℚ)) ≠ ((15 : ℚ), 15, 5, 5)
    ∧ arc_end_abs { abs_xy := false, x := 5, y := 5 } [('X', 10)] = (15, 5) :=
  ⟨by decide, by decide, by decide⟩

/-- The box component of the pass-A fold is the fold of `upd_box` over the
accepted points. -/
theorem foldA_box (F : FloatOps) (lin : Bool) (seg deg bxm bxM bym byM : ℚ) :
    ∀ (doc : List String) (st : MState) (box : Option BBox),
      (doc.foldl (boundsA_step F lin seg deg bxm bxM bym byM) (st, box)).2 =
        (pointsA F lin seg deg bxm bxM bym byM st doc).foldl upd_box box := by
  intro doc
  induction doc with
  | nil => intro st box; rfl
  | cons l ls ih =>
    intro st box
    simp only [List.foldl_cons, pointsA, boundsA_step, List.foldl_append]
    exact ih _ _

/-- `upd_box` always produces a box. -/
theorem upd_box_ne_none (box : Option BBox) (p : ℚ × ℚ) :
    upd_box box p ≠ none := by
  rcases box with _ | ⟨a, b, c, d⟩ <;> rcases p with ⟨px, py⟩ <;> simp [upd_box]

/-- Folding `upd_box` yields the empty sentinel exactly when it started
empty and no point was accepted. -/
theorem foldl_upd_box_none :
    ∀ (ps : List (ℚ × ℚ)) (box : Option BBox),
      ps.foldl upd_box box = none ↔ box = none ∧ ps = [] := by
  intro ps
  induction ps with
  | nil => intro box; simp
  | cons p tl ih =>
    intro box
    simp only [List.foldl_cons]
    rw [ih]
    constructor
    · rintro ⟨h1, -⟩
      exact absurd h1 (upd_box_ne_none box p)
    · rintro ⟨-, h⟩
      cases h

/-- The box component of a successful pass-B fold is the fold of `upd_box`
over the accepted (sheared) points. -/
theorem foldB_box (F : FloatOps) (k y_ref : ℚ) (lin : Bool)
    (seg deg bxm bxM bym byM : ℚ) :
    ∀ (doc : List String) (st : MState) (box : Option BBox)
      (st' : MState) (box' : Option BBox),
      doc.foldlM (boundsB_step F k y_ref lin seg deg bxm bxM bym byM)
        (st, box) = Except.ok (st', box') →
      box' = (pointsB F k y_ref lin seg deg bxm bxM bym byM st doc).foldl
        upd_box box := by
  intro doc
  induction doc with
  | nil =>
    intro st box st' box' h
    simp only [List.foldlM_nil] at h
    cases h
    rfl
  | cons l ls ih =>
    intro st box st' box' h
    rw [List.foldlM_cons] at h
    cases hl : lineB F k y_ref lin seg deg bxm bxM bym byM st l with
    | error m =>
      simp only [boundsB_step, hl] at h
      cases h
    | ok r =>
      rcases r with ⟨st1, ps⟩
      simp only [boundsB_step, hl] at h
      simp only [pointsB, hl, List.foldl_append]
      exact ih _ _ _ _ h

/-- Claim C7 (amended): the empty accumulator is a distinguishable state —
the scanned box is the empty sentinel exactly when no point was accepted
(it can never be confused with a box produced by accepted points, even
points at the origin, since `upd_box` never yields the sentinel).  When no
extruding in-bed point exists anywhere, pass A returns the zero box, and
pass B — provided its scan completes without the relative-XY hard error —
returns zero translation and the zero box without a feasibility error. -/
theorem C7_empty_scan_degenerates :
    (∀ (F : FloatOps) (lin : Bool) (seg deg bxm bxM bym byM : ℚ)
      (doc : List String),
      pointsA F lin seg deg bxm bxM bym byM initState doc = [] →
      compute_inbed_extruding_bounds_original F lin seg deg bxm bxM bym byM
        doc = (0, 0, 0, 0))
    ∧ (∀ (F : FloatOps) (k y_ref : ℚ) (lin : Bool)
      (seg deg bxm bxM bym byM margin : ℚ) (mode : String) (eps : ℚ)
      (doc : List String) (acc : MState × Option BBox),
      pointsB F k y_ref lin seg deg bxm bxM bym byM initState doc = [] →
      doc.foldlM (boundsB_step F k y_ref lin seg deg bxm bxM bym byM)
        (initState, none) = Except.ok acc →
      compute_translation_for_bounds F k y_ref lin seg deg bxm bxM bym byM
        margin mode eps doc = Except.ok (0, 0, (0, 0, 0, 0)))
    ∧ (∀ (F : FloatOps) (lin : Bool) (seg deg bxm bxM bym byM : ℚ)
      (st : MState) (doc : List String),
      ((doc.foldl (boundsA_step F lin seg deg bxm bxM bym byM)
        (st, none)).2 = none ↔
        pointsA F lin seg deg bxm bxM bym byM st doc = []))
    ∧ (∀ (box : Option BBox) (p : ℚ × ℚ), upd_box box p ≠ none) := by
  refine ⟨?_, ?_, ?_, fun box p => upd_box_ne_none box p⟩
  · intro F lin seg deg bxm bxM bym byM doc h
    unfold compute_inbed_extruding_bounds_original
    rw [foldA_box, h]
    rfl
  · intro F k y_ref lin seg deg bxm bxM bym byM margin mode eps doc acc h hf
    rcases acc with ⟨st', box'⟩
    have hbox := foldB_box F k y_ref lin seg deg bxm bxM bym byM doc
      initState none st' box' hf
    rw [h] at hbox
    simp only [List.foldl_nil] at hbox
    unfold compute_translation_for_bounds
    rw [hf, hbox]
  · intro F lin seg deg bxm bxM bym byM st doc
    rw [foldA_box]
    rw [foldl_upd_box_none]
    simp

/-- Counterexample for C7 as stated: the document `G91; M107` has no
extruding in-bed point anywhere (no point is accepted by either scan), yet
pass B raises the relative-XY hard error rather than returning the zero
translation. -/
theorem C7_counterexample :
    pointsA axisOps false (1 / 5) 5 0 250 0 220 initState docRelNoE = []
    ∧ pointsB axisOps 0 0 false (1 / 5) 5 0 250 0 220 initState docRelNoE = []
    ∧ compute_translation_for_bounds axisOps 0 0 false (1 / 5) 5 0 250 0 220 0
        modeClamp (1 / 100) docRelNoE = Except.error msgRecenterAbs :=
  ⟨by decide, by decide, rfl⟩

/-- Witness for C7: a document whose only extruding endpoint lies outside
the bed accepts no point, and both passes degenerate to zeros, pass B
without error. -/
theorem C7_witness :
    compute_inbed_extruding_bounds_original axisOps false (1 / 5) 5 0 250 0 220
      docOutBed = (0, 0, 0, 0)
    ∧ compute_translation_for_bounds axisOps 0 0 false (1 / 5) 5 0 250 0 220 0
      modeClamp (1 / 100) docOutBed = Except.ok (0, 0, (0, 0, 0, 0)) :=
  ⟨C7_empty_scan_degenerates.1 axisOps false (1 / 5) 5 0 250 0 220 docOutBed
      (by decide),
    C7_empty_scan_degenerates.2.1 axisOps 0 0 false (1 / 5) 5 0 250 0 220 0
      modeClamp (1 / 100) docOutBed
      (⟨true, true, true, 300, 10, 0, 1, none⟩, none) (by decide) rfl⟩

/-- Claim C9 evaluated at the failing input: with 0 decimal places the
stripping of trailing zeros eats the integer digits — `_fmt_fixed(100, 0)`
yields the token `"1"`, which re-parses as `1`, off by 99 units of the last
printed decimal place (one unit = 1), far beyond the claimed one-unit
round-trip error. -/
theorem C9_fmt_places0_bug :
    fmt_fixed 100 0 = sOne
    ∧ parseNumTok sOne.data = some (1, 1)
    ∧ ¬(|(100 : ℚ) - 1| ≤ 1) :=
  ⟨by decide, by decide, by decide⟩
